import Mathlib

/-!
Verification of the hinemos-mcp-server client library against its
natural-language specification.  The Python sources under
`src/hinemos_mcp/` (pydantic data models in `monitor_models.py` /
`models.py`, the REST client in `client.py`, and the high-level builders
in `monitor.py` / `repository.py`) are shallowly embedded as Lean
definitions; machine floats that only ever hold small decimal literals
and are only compared (never computed with) are modelled as `ℚ`,
Python `None`/attribute absence as `Option`, and fallible paths as
`Except`.
-/

namespace Hinemos

/-! ## Enumerations (monitor_models.py / models.py) -/

/-- `MonitorTypeEnum` (monitor_models.py lines 10-17). -/
inductive MonitorTypeEnum
  | TRUTH | NUMERIC | STRING | TRAP | SCENARIO | BINARY
  deriving DecidableEq, Repr

/-- `RunIntervalEnum` members (monitor_models.py lines 20-28). -/
inductive RunIntervalEnum
  | NONE | SEC_30 | MIN_01 | MIN_05 | MIN_10 | MIN_30 | MIN_60
  deriving DecidableEq, Repr

/-- `PriorityEnum` (monitor_models.py lines 74-80). -/
inductive PriorityEnum
  | CRITICAL | UNKNOWN | WARNING | INFO | NONE
  deriving DecidableEq, Repr

/-- `ConvertFlagEnum` (monitor_models.py lines 83-86). -/
inductive ConvertFlagEnum
  | NONE | DELTA
  deriving DecidableEq, Repr

/-- `MonitorNumericTypeEnum` (monitor_models.py lines 89-93). -/
inductive MonitorNumericTypeEnum
  | BASIC | PREDICTION | CHANGE
  deriving DecidableEq, Repr

/-- `PredictionMethodEnum` (monitor_models.py lines 96-100). -/
inductive PredictionMethodEnum
  | POLYNOMIAL_1 | POLYNOMIAL_2 | POLYNOMIAL_3
  deriving DecidableEq, Repr

/-- `NotifyTypeEnum` (monitor_models.py lines 103-112). -/
inductive NotifyTypeEnum
  | STATUS | EVENT | MAIL | JOB | LOG | COMMAND | INFRA | REST
  deriving DecidableEq, Repr

/-- `IpAddressVersion` (models.py lines 10-13). -/
inductive IpAddressVersion
  | IPV4 | IPV6
  deriving DecidableEq, Repr

/-- The `.value` string of each `MonitorNumericTypeEnum` member (it is a
`str` enum, so the member itself compares equal to this string). -/
def MonitorNumericTypeEnum.value : MonitorNumericTypeEnum → String
  | .BASIC => "BASIC"
  | .PREDICTION => "PREDICTION"
  | .CHANGE => "CHANGE"

/-- The `.value` string of each `PriorityEnum` member. -/
def PriorityEnum.value : PriorityEnum → String
  | .CRITICAL => "CRITICAL"
  | .UNKNOWN => "UNKNOWN"
  | .WARNING => "WARNING"
  | .INFO => "INFO"
  | .NONE => "NONE"

/-! ## RunIntervalEnum deserialization (monitor_models.py lines 20-45)

Python's `Enum` lookup `RunIntervalEnum(value)` first compares `value`
against each member's `.value` (a string); on no match it calls
`_missing_`, which maps the legacy second-count integers and returns
`None` (hence `ValueError`) for everything else.  A deserialized value
is either a JSON string or a JSON integer, modelled by `PyValue`. -/

/-- A Python value arriving at `RunIntervalEnum(...)` during
deserialization: a string or an integer. -/
inductive PyValue
  | pyStr (s : String)
  | pyInt (n : Int)
  deriving DecidableEq, Repr

/-- Member lookup by `.value`: the seven string tokens. -/
def RunIntervalEnum.fromToken (s : String) : Option RunIntervalEnum :=
  if s = "NONE" then some .NONE
  else if s = "SEC_30" then some .SEC_30
  else if s = "MIN_01" then some .MIN_01
  else if s = "MIN_05" then some .MIN_05
  else if s = "MIN_10" then some .MIN_10
  else if s = "MIN_30" then some .MIN_30
  else if s = "MIN_60" then some .MIN_60
  else none

/-- `RunIntervalEnum._missing_` (monitor_models.py lines 30-45): integer
values go through `value_map.get` (a keyed lookup, i.e. an equality
chain); any non-integer returns `None`. -/
def RunIntervalEnum.missing : PyValue → Option RunIntervalEnum
  | .pyStr _ => none
  | .pyInt n =>
      if n = 0 then some .NONE
      else if n = 30 then some .SEC_30
      else if n = 60 then some .MIN_01
      else if n = 300 then some .MIN_05
      else if n = 600 then some .MIN_10
      else if n = 1800 then some .MIN_30
      else if n = 3600 then some .MIN_60
      else none

/-- `RunIntervalEnum(value)`: member lookup by value, falling back to
`_missing_`; `none` models the `ValueError` a failed lookup raises,
which pydantic surfaces as a validation error. -/
def RunIntervalEnum.deserialize (v : PyValue) : Option RunIntervalEnum :=
  match v with
  | .pyStr s =>
      (RunIntervalEnum.fromToken s).orElse (fun _ => RunIntervalEnum.missing v)
  | .pyInt _ => RunIntervalEnum.missing v

/-- Spec-side acceptance table for `RunInterval` deserialization,
written from the specification's words (seven tokens plus the legacy
fallback mapping `0→NONE, 30→SEC_30, 60→MIN_01, 300→MIN_05, 600→MIN_10,
1800→MIN_30, 3600→MIN_60`; everything else a hard error), to be
compared with `RunIntervalEnum.deserialize` above. -/
def runIntervalSpecTable (v : PyValue) : Option RunIntervalEnum :=
  match v with
  | .pyStr s =>
      if s = "NONE" then some .NONE
      else if s = "SEC_30" then some .SEC_30
      else if s = "MIN_01" then some .MIN_01
      else if s = "MIN_05" then some .MIN_05
      else if s = "MIN_10" then some .MIN_10
      else if s = "MIN_30" then some .MIN_30
      else if s = "MIN_60" then some .MIN_60
      else none
  | .pyInt n =>
      if n = 0 then some .NONE
      else if n = 30 then some .SEC_30
      else if n = 60 then some .MIN_01
      else if n = 300 then some .MIN_05
      else if n = 600 then some .MIN_10
      else if n = 1800 then some .MIN_30
      else if n = 3600 then some .MIN_60
      else none

/-! ## Numeric threshold rows (monitor_models.py lines 146-180) -/

/-- `MonitorNumericValueInfoRequest` (monitor_models.py lines 146-169).
Threshold limits are machine floats in the source; they only ever hold
small decimal literals and are only compared, so `ℚ` models them
exactly. -/
structure MonitorNumericValueInfoRequest where
  monitor_numeric_type : Option MonitorNumericTypeEnum := none
  priority : PriorityEnum
  threshold_lower_limit : Option ℚ := none
  threshold_upper_limit : Option ℚ := none
  message : Option String := none
  deriving DecidableEq, Repr

/-- `MonitorNumericValueInfoResponse` (monitor_models.py lines 172-180);
note it declares no classification field. -/
structure MonitorNumericValueInfoResponse where
  priority : PriorityEnum
  threshold_lower_limit : Option ℚ := none
  threshold_upper_limit : Option ℚ := none
  message : Option String := none
  deriving DecidableEq, Repr

/-- The dict produced by `MonitorNumericValueInfoRequest.model_dump`
with the default `by_alias=True, exclude_none=True`: one optional slot
per aliased field, `none` meaning the key is absent. -/
structure DumpedNumericValueInfo where
  monitorNumericType : Option String
  priority : String
  thresholdLowerLimit : Option ℚ
  thresholdUpperLimit : Option ℚ
  message : Option String
  deriving DecidableEq, Repr

namespace MonitorNumericValueInfoRequest

/-- `MonitorNumericValueInfoRequest.model_dump` (monitor_models.py lines
154-166): the base pydantic dump serializes each present enum as its
`.value` string and drops `None` fields; the override then rewrites a
`monitorNumericType` entry equal to `"BASIC"` to the empty string. -/
def model_dump (r : MonitorNumericValueInfoRequest) : DumpedNumericValueInfo :=
  let data : DumpedNumericValueInfo :=
    { monitorNumericType := r.monitor_numeric_type.map MonitorNumericTypeEnum.value
      priority := r.priority.value
      thresholdLowerLimit := r.threshold_lower_limit
      thresholdUpperLimit := r.threshold_upper_limit
      message := r.message }
  { data with
      monitorNumericType :=
        data.monitorNumericType.map (fun s => if s = "BASIC" then "" else s) }

end MonitorNumericValueInfoRequest

/-! ## Response→request threshold converter (monitor.py lines 77-119) -/

/-- Classification branch of
`MonitorAPI._convert_numeric_value_response_to_request` (monitor.py
lines 100-115), with the source's branch structure kept verbatim. -/
def classifyNumericType (lower upper : Option ℚ) : MonitorNumericTypeEnum :=
  match lower, upper with
  | some l, some u =>
      if l < 0 ∨ (l = 0 ∧ u = 0) then .CHANGE
      else if l > u ∧ l ≥ 1000 then .BASIC
      else .BASIC
  | _, _ => .BASIC

/-- `MonitorAPI._convert_numeric_value_response_to_request` (monitor.py
lines 77-119). -/
def convert_numeric_value_response_to_request
    (response_list : List MonitorNumericValueInfoResponse) :
    List MonitorNumericValueInfoRequest :=
  response_list.map fun r =>
    { monitor_numeric_type :=
        some (classifyNumericType r.threshold_lower_limit r.threshold_upper_limit)
      priority := r.priority
      threshold_lower_limit := r.threshold_lower_limit
      threshold_upper_limit := r.threshold_upper_limit
      message := r.message }

/-- Claim-side classification condition, written from the claim's words
("CHANGE if and only if both limits are present and either the lower
limit is negative or both limits equal 0.0"), to be compared with
`classifyNumericType`. -/
def claimChangeCondition (lower upper : Option ℚ) : Bool :=
  match lower, upper with
  | some l, some u => decide (l < 0) || (decide (l = 0) && decide (u = 0))
  | _, _ => false

/-! ## Default threshold tables (monitor.py lines 290-313 and 470-494) -/

/-- Threshold configuration dict accepted by the create builders
(`threshold.get("priority"/"lower_limit"/"upper_limit"/"message")`). -/
structure ThresholdSpec where
  priority : Option PriorityEnum := none
  lower_limit : Option ℚ := none
  upper_limit : Option ℚ := none
  message : Option String := none
  deriving DecidableEq, Repr

/-- `default_thresholds` of `create_ping_monitor` (monitor.py lines
303-312). -/
def defaultPingThresholds : List MonitorNumericValueInfoRequest :=
  [ { monitor_numeric_type := some .CHANGE, priority := .INFO,
      threshold_lower_limit := some (-1), threshold_upper_limit := some 1 },
    { monitor_numeric_type := some .CHANGE, priority := .WARNING,
      threshold_lower_limit := some (-2), threshold_upper_limit := some 2 },
    { monitor_numeric_type := some .CHANGE, priority := .CRITICAL,
      threshold_lower_limit := some 0, threshold_upper_limit := some 0 },
    { monitor_numeric_type := some .CHANGE, priority := .UNKNOWN,
      threshold_lower_limit := some 0, threshold_upper_limit := some 0 },
    { monitor_numeric_type := some .BASIC, priority := .INFO,
      threshold_lower_limit := some 1000, threshold_upper_limit := some 1 },
    { monitor_numeric_type := some .BASIC, priority := .WARNING,
      threshold_lower_limit := some 3000, threshold_upper_limit := some 51 },
    { monitor_numeric_type := some .BASIC, priority := .CRITICAL,
      threshold_lower_limit := some 0, threshold_upper_limit := some 0 },
    { monitor_numeric_type := some .BASIC, priority := .UNKNOWN,
      threshold_lower_limit := some 0, threshold_upper_limit := some 0 } ]

/-- `default_thresholds` of `create_http_numeric_monitor` (monitor.py
lines 484-493). -/
def defaultHttpNumericThresholds : List MonitorNumericValueInfoRequest :=
  [ { monitor_numeric_type := some .BASIC, priority := .WARNING,
      threshold_lower_limit := some 0, threshold_upper_limit := some 5000 },
    { monitor_numeric_type := some .CHANGE, priority := .INFO,
      threshold_lower_limit := some (-1), threshold_upper_limit := some 1 },
    { monitor_numeric_type := some .CHANGE, priority := .WARNING,
      threshold_lower_limit := some (-2), threshold_upper_limit := some 2 },
    { monitor_numeric_type := some .CHANGE, priority := .UNKNOWN,
      threshold_lower_limit := some 0, threshold_upper_limit := some 0 },
    { monitor_numeric_type := some .BASIC, priority := .CRITICAL,
      threshold_lower_limit := some 0, threshold_upper_limit := some 0 },
    { monitor_numeric_type := some .CHANGE, priority := .CRITICAL,
      threshold_lower_limit := some 0, threshold_upper_limit := some 0 },
    { monitor_numeric_type := some .BASIC, priority := .UNKNOWN,
      threshold_lower_limit := some 0, threshold_upper_limit := some 0 },
    { monitor_numeric_type := some .BASIC, priority := .INFO,
      threshold_lower_limit := some 0, threshold_upper_limit := some 1000 } ]

/-- The `numeric_value_info` assembled by `create_ping_monitor`
(monitor.py lines 290-313): an explicit, non-empty threshold list is
mapped row by row with classification fixed to `BASIC`; `if thresholds:`
sends both `None` and the empty list to the default table. -/
def create_ping_numeric_value_info
    (thresholds : Option (List ThresholdSpec)) :
    List MonitorNumericValueInfoRequest :=
  match thresholds with
  | some ts =>
      if ts.isEmpty then defaultPingThresholds
      else ts.map fun t =>
        { monitor_numeric_type := some .BASIC
          priority := t.priority.getD .WARNING
          threshold_lower_limit := t.lower_limit
          threshold_upper_limit := t.upper_limit
          message := some (t.message.getD "") }
  | none => defaultPingThresholds

/-- The `numeric_value_info` assembled by `create_http_numeric_monitor`
(monitor.py lines 470-494), same shape as the ping builder. -/
def create_http_numeric_value_info
    (thresholds : Option (List ThresholdSpec)) :
    List MonitorNumericValueInfoRequest :=
  match thresholds with
  | some ts =>
      if ts.isEmpty then defaultHttpNumericThresholds
      else ts.map fun t =>
        { monitor_numeric_type := some .BASIC
          priority := t.priority.getD .WARNING
          threshold_lower_limit := t.lower_limit
          threshold_upper_limit := t.upper_limit
          message := some (t.message.getD "") }
  | none => defaultHttpNumericThresholds

/-- The `(classification, priority)` pair of a threshold row. -/
def thresholdPair (r : MonitorNumericValueInfoRequest) :
    Option MonitorNumericTypeEnum × PriorityEnum :=
  (r.monitor_numeric_type, r.priority)

/-! ## Session client error handling (client.py lines 66-73, 155-213)

`_make_request` calls `response.raise_for_status()`; httpx raises
`HTTPStatusError` for every non-2xx status.  The handler parses the
error body as JSON (`response.json()`), extracts its `message` field
with `str(error_response)` as the dict-level fallback, or falls back to
`response.text or str(e)` when the body is not JSON, and raises
`HinemosAPIError(f"HTTP {code}: {detail}", status_code, response)`.
`httpx.RequestError` (network-level failure) becomes
`HinemosAPIError(f"Request failed: {e}")` with no status code. -/

/-- Result of `response.json()` on an error body: the optional
`message` field plus `str(error_response)`, the rendering used when the
field is absent. -/
structure ErrorBody where
  message : Option String
  reprStr : String
  deriving DecidableEq, Repr

/-- An HTTP response as `_make_request` observes it: status code, the
JSON parse of the body (`none` when parsing raises), the raw
`response.text`, and the `str(e)` rendering of the `HTTPStatusError`
httpx raises for a non-2xx status. -/
structure HttpResponseModel where
  status : Nat
  jsonBody : Option ErrorBody
  text : String
  excStr : String
  deriving DecidableEq, Repr

/-- Outcome of the underlying `httpx` transport call: a response, or a
network-level `httpx.RequestError` carrying its `str(e)`. -/
inductive TransportOutcome
  | response (r : HttpResponseModel)
  | requestError (excStr : String)
  deriving DecidableEq, Repr

/-- `HinemosAPIError` (client.py lines 66-73). -/
structure HinemosAPIError where
  message : String
  status_code : Option Nat := none
  response : Option ErrorBody := none
  deriving DecidableEq, Repr

/-- The `error_detail` computed in `_make_request`'s `HTTPStatusError`
handler (client.py lines 199-204): JSON body's `message` field, then
`str(error_response)`, then `response.text or str(e)`. -/
def errorDetail (r : HttpResponseModel) : String :=
  match r.jsonBody with
  | some body => body.message.getD body.reprStr
  | none => if r.text = "" then r.excStr else r.text

/-- `HinemosClient._make_request` after login (client.py lines 183-213):
2xx returns the body (204 returns the empty dict, modelled `none`);
non-2xx and network failures raise `HinemosAPIError`. -/
def make_request (t : TransportOutcome) : Except HinemosAPIError (Option ErrorBody) :=
  match t with
  | .requestError ex =>
      .error { message := "Request failed: " ++ ex }
  | .response r =>
      if 200 ≤ r.status ∧ r.status < 300 then
        if r.status = 204 then .ok none else .ok r.jsonBody
      else
        .error
          { message := "HTTP " ++ toString r.status ++ ": " ++ errorDetail r
            status_code := some r.status
            response := r.jsonBody }

/-! ## Login caching (client.py lines 117-121, 162-165)

`self._token` starts as `None`; `login` returns immediately when
`self._token` is truthy (a non-empty string) and otherwise performs one
POST to the login endpoint and stores the granted token.
`_make_request` runs `if not self._token: self.login()` before every
request.  Each function below returns the new state paired with the
number of login POSTs it issued. -/

/-- `self._token` of a `HinemosClient` instance. -/
structure ClientState where
  token : Option String
  deriving DecidableEq, Repr

/-- Python truthiness of `self._token`: `None` and `""` are falsy. -/
def tokenTruthy : Option String → Bool
  | none => false
  | some s => s ≠ ""

/-- `HinemosClient.login` (client.py lines 117-136) under a successful
upstream login granting `serverToken`: a no-op when a token is held,
otherwise one login POST. -/
def HinemosClient.login (serverToken : String) (st : ClientState) :
    ClientState × Nat :=
  if tokenTruthy st.token then (st, 0)
  else ({ token := some serverToken }, 1)

/-- The `if not self._token: self.login()` guard opening
`_make_request` (client.py lines 162-165). -/
def ensureLoggedIn (serverToken : String) (st : ClientState) :
    ClientState × Nat :=
  if tokenTruthy st.token then (st, 0)
  else HinemosClient.login serverToken st

/-- One client operation: the login guard followed by the request
itself, which never writes `self._token`. -/
def runOperation (serverToken : String) (st : ClientState) :
    ClientState × Nat :=
  ensureLoggedIn serverToken st

/-- A sequence of `n` operations on the same client instance, returning
the final state and the total number of login POSTs. -/
def runOperations (serverToken : String) (st : ClientState) :
    Nat → ClientState × Nat
  | 0 => (st, 0)
  | n + 1 =>
      let (st1, c1) := runOperation serverToken st
      let (st2, c2) := runOperations serverToken st1 n
      (st2, c1 + c2)

/-! ## Node creation (repository.py lines 33-83) -/

/-- Python's `":" in ip_address` membership test, over the string's
character sequence. -/
def containsColon (s : String) : Bool := s.toList.contains ':'

/-- The address-related fields of the `AddNodeRequest` that
`RepositoryAPI.create_node` submits (repository.py lines 63-81). -/
structure NodeIpFields where
  ip_address_v4 : Option String
  ip_address_v6 : Option String
  ip_address_version : IpAddressVersion
  deriving DecidableEq, Repr

/-- The IP-version determination and address-field population of
`RepositoryAPI.create_node` (repository.py lines 63-81). -/
def create_node_ip_fields (ip_address : String) : NodeIpFields :=
  let ip_version : IpAddressVersion :=
    if containsColon ip_address then .IPV6 else .IPV4
  { ip_address_v4 := if ip_version = .IPV4 then some ip_address else none
    ip_address_v6 := if ip_version = .IPV6 then some ip_address else none
    ip_address_version := ip_version }

/-- Claim-side domain predicate: a valid dotted-decimal IPv4 string
(four dot-separated groups of one to three digits, each at most 255;
every character a digit or a dot). -/
def decimalValue (p : List Char) : Nat :=
  p.foldl (fun a c => a * 10 + (c.toNat - '0'.toNat)) 0

/-- One octet of a dotted-decimal IPv4 string. -/
def isValidOctet (p : List Char) : Bool :=
  decide (1 ≤ p.length) && decide (p.length ≤ 3) &&
    p.all Char.isDigit && decide (decimalValue p ≤ 255)

/-- Validity of an IPv4 address string (claim-side domain predicate). -/
def isValidIPv4 (s : String) : Bool :=
  s.toList.all (fun c => c.isDigit || c == '.') &&
    (let parts := s.toList.splitOn '.'
     decide (parts.length = 4) && parts.all isValidOctet)

/-- Hexadecimal digit test for the IPv6 predicate. -/
def isHexDigitChar (c : Char) : Bool :=
  c.isDigit || (decide ('a' ≤ c) && decide (c ≤ 'f')) ||
    (decide ('A' ≤ c) && decide (c ≤ 'F'))

/-- Validity of a textual IPv6 address (claim-side domain predicate,
covering the standard colon-separated hexadecimal forms: every
character a hex digit or a colon, and at least two colons — the
shortest form `::` already has two). -/
def isValidIPv6 (s : String) : Bool :=
  s.toList.all (fun c => isHexDigitChar c || c == ':') &&
    decide (2 ≤ s.toList.count ':')

/-! ## Monitor response models (monitor_models.py) -/

/-- `NotifyRelationInfoRequest` (monitor_models.py lines 128-133). -/
structure NotifyRelationInfoRequest where
  notify_id : String
  deriving DecidableEq, Repr

/-- `NotifyRelationInfoResponse` (monitor_models.py lines 136-142). -/
structure NotifyRelationInfoResponse where
  notify_id : String
  notify_type : Option NotifyTypeEnum := none
  deriving DecidableEq, Repr

/-- `MonitorAPI._convert_notify_relation_response_to_request`
(monitor.py lines 121-132). -/
def convert_notify_relation_response_to_request
    (response_list : List NotifyRelationInfoResponse) :
    List NotifyRelationInfoRequest :=
  response_list.map fun r => { notify_id := r.notify_id }

/-- `AbstractMonitorResponse` (monitor_models.py lines 265-288).  Note
the class declares no `prediction_flg` field; with pydantic's default
`extra="ignore"` any `predictionFlg` key in the server JSON is
discarded and the attribute does not exist on the instance. -/
structure AbstractMonitorResponse where
  monitor_id : String
  monitor_type : Option MonitorTypeEnum := none
  monitor_type_id : Option String := none
  application : Option String := none
  description : Option String := none
  monitor_flg : Option Bool := none
  run_interval : Option RunIntervalEnum := none
  calendar_id : Option String := none
  facility_id : Option String := none
  scope : Option String := none
  notify_relation_list : List NotifyRelationInfoResponse := []
  owner_role_id : Option String := none
  reg_date : Option String := none
  reg_user : Option String := none
  update_date : Option String := none
  update_user : Option String := none
  sdml_monitor_type_id : Option String := none
  deriving DecidableEq, Repr

/-- `AbstractNumericMonitorResponse` (monitor_models.py lines 347-371). -/
structure AbstractNumericMonitorResponse extends AbstractMonitorResponse where
  collector_flg : Option Bool := none
  item_name : Option String := none
  measure : Option String := none
  prediction_flg : Option Bool := none
  prediction_method : Option PredictionMethodEnum := none
  prediction_analysys_range : Option Int := none
  prediction_target : Option Int := none
  prediction_application : Option String := none
  change_flg : Option Bool := none
  change_analysys_range : Option Int := none
  change_application : Option String := none
  numeric_value_info : List MonitorNumericValueInfoResponse := []
  prediction_notify_relation_list : List NotifyRelationInfoResponse := []
  change_notify_relation_list : List NotifyRelationInfoResponse := []
  deriving DecidableEq, Repr

/-- `PingCheckInfoResponse` (monitor_models.py lines 431-438). -/
structure PingCheckInfoResponse where
  run_count : Option Int := none
  run_interval : Option Int := none
  timeout : Option Int := none
  deriving DecidableEq, Repr

/-- `HttpCheckInfoResponse` (monitor_models.py lines 462-480). -/
structure HttpCheckInfoResponse where
  request_url : Option String := none
  timeout : Option Int := none
  user_agent : Option String := none
  connect_timeout : Option Int := none
  request_method : Option String := none
  post_data : Option String := none
  auth_type : Option String := none
  auth_user : Option String := none
  auth_password : Option String := none
  proxy_flg : Option Bool := none
  proxy_url : Option String := none
  proxy_port : Option Int := none
  proxy_user : Option String := none
  proxy_password : Option String := none
  deriving DecidableEq, Repr

/-- `SnmpCheckInfoResponse` (monitor_models.py lines 492-498). -/
structure SnmpCheckInfoResponse where
  snmp_oid : Option String := none
  convert_flg : Option ConvertFlagEnum := none
  deriving DecidableEq, Repr

/-- `PingMonitorResponse` (monitor_models.py lines 683-688). -/
structure PingMonitorResponse extends AbstractNumericMonitorResponse where
  ping_check_info : Option PingCheckInfoResponse := none
  deriving DecidableEq, Repr

/-- `HttpNumericMonitorResponse` (monitor_models.py lines 707-712). -/
structure HttpNumericMonitorResponse extends AbstractNumericMonitorResponse where
  http_check_info : Option HttpCheckInfoResponse := none
  deriving DecidableEq, Repr

/-- `SnmpNumericMonitorResponse` (monitor_models.py lines 764-769). -/
structure SnmpNumericMonitorResponse extends AbstractNumericMonitorResponse where
  snmp_check_info : Option SnmpCheckInfoResponse := none
  deriving DecidableEq, Repr

/-! ## Check-info request models (monitor_models.py)

`PingCheckInfoRequest.run_count` / `.timeout` and
`HttpCheckInfoRequest.request_url` / `.timeout` are required (or
defaulted) scalars in the source; the update builders can feed them a
fetched value that is itself `None`, which pydantic would reject as a
validation error, so the slots are modelled as `Option` carrying
exactly the value the builder passes. -/

/-- `PingCheckInfoRequest` (monitor_models.py lines 421-428). -/
structure PingCheckInfoRequest where
  run_count : Option Int := some 1
  run_interval : Option Int := some 1000
  timeout : Option Int := some 5000
  deriving DecidableEq, Repr

/-- `HttpCheckInfoRequest` (monitor_models.py lines 441-459), restricted
to the fields the builders under verification populate. -/
structure HttpCheckInfoRequest where
  request_url : Option String
  timeout : Option Int := some 10000
  deriving DecidableEq, Repr

/-- `SnmpCheckInfoRequest` (monitor_models.py lines 483-489). -/
structure SnmpCheckInfoRequest where
  snmp_oid : Option String
  convert_flg : Option ConvertFlagEnum := some .NONE
  deriving DecidableEq, Repr

/-- `AbstractModifyNumericMonitorRequest` (monitor_models.py lines
249-262 and 320-344): every field optional, absent meaning the key is
not sent. -/
structure AbstractModifyNumericMonitorRequest where
  application : Option String := none
  description : Option String := none
  monitor_flg : Option Bool := none
  run_interval : Option RunIntervalEnum := none
  calendar_id : Option String := none
  facility_id : Option String := none
  notify_relation_list : Option (List NotifyRelationInfoRequest) := none
  collector_flg : Option Bool := none
  item_name : Option String := none
  measure : Option String := none
  prediction_flg : Option Bool := none
  prediction_method : Option PredictionMethodEnum := none
  prediction_analysys_range : Option Int := none
  prediction_target : Option Int := none
  prediction_application : Option String := none
  change_flg : Option Bool := none
  change_analysys_range : Option Int := none
  change_application : Option String := none
  numeric_value_info : Option (List MonitorNumericValueInfoRequest) := none
  prediction_notify_relation_list : Option (List NotifyRelationInfoRequest) := none
  change_notify_relation_list : Option (List NotifyRelationInfoRequest) := none
  deriving DecidableEq, Repr

/-- `ModifyPingMonitorRequest` (monitor_models.py lines 675-680). -/
structure ModifyPingMonitorRequest extends AbstractModifyNumericMonitorRequest where
  ping_check_info : Option PingCheckInfoRequest := none
  deriving DecidableEq, Repr

/-- `ModifyHttpNumericMonitorRequest` (monitor_models.py lines 699-704). -/
structure ModifyHttpNumericMonitorRequest extends AbstractModifyNumericMonitorRequest where
  http_check_info : Option HttpCheckInfoRequest := none
  deriving DecidableEq, Repr

/-- `ModifySnmpNumericMonitorRequest` (monitor_models.py lines 756-761). -/
structure ModifySnmpNumericMonitorRequest extends AbstractModifyNumericMonitorRequest where
  snmp_check_info : Option SnmpCheckInfoRequest := none
  deriving DecidableEq, Repr

/-! ## Update-path builders (monitor.py)

Each builder fetches the full list of its monitor type, scans it for
the first entry with the requested identifier (`next(...)`), raises
`ValueError(f"... not found")` when absent, and otherwise assembles a
complete modify request from the fetched record overlaid with the
caller's arguments.  The builders below return the modify request the
Python code would submit, or the not-found error message. -/

/-- The `update_data` snapshot shared by the numeric update builders
(monitor.py lines 379-397, 560-578, 920-938). -/
def numericUpdateSnapshot (cm : AbstractNumericMonitorResponse)
    (description : Option String) (run_interval : Option RunIntervalEnum) :
    AbstractModifyNumericMonitorRequest :=
  { facility_id := cm.facility_id
    collector_flg := cm.collector_flg
    application := cm.application
    item_name := cm.item_name
    measure := cm.measure
    prediction_flg := cm.prediction_flg
    prediction_method := cm.prediction_method
    prediction_target := cm.prediction_target
    prediction_analysys_range := cm.prediction_analysys_range
    prediction_application := cm.prediction_application
    change_flg := cm.change_flg
    change_analysys_range := cm.change_analysys_range
    change_application := cm.change_application
    numeric_value_info :=
      some (convert_numeric_value_response_to_request cm.numeric_value_info)
    prediction_notify_relation_list :=
      some (convert_notify_relation_response_to_request cm.prediction_notify_relation_list)
    change_notify_relation_list :=
      some (convert_notify_relation_response_to_request cm.change_notify_relation_list)
    notify_relation_list :=
      some (convert_notify_relation_response_to_request cm.notify_relation_list)
    description := description
    run_interval := run_interval }

/-- `MonitorAPI.update_ping_monitor` (monitor.py lines 349-422). -/
def update_ping_monitor (current : List PingMonitorResponse)
    (monitor_id : String) (description : Option String)
    (run_interval : Option RunIntervalEnum)
    (run_count : Option Int) (timeout : Option Int) :
    Except String ModifyPingMonitorRequest :=
  match current.find? (fun m => m.monitor_id == monitor_id) with
  | none => .error ("Monitor with ID " ++ monitor_id ++ " not found")
  | some cm =>
      .ok
        { toAbstractModifyNumericMonitorRequest :=
            numericUpdateSnapshot cm.toAbstractNumericMonitorResponse
              description run_interval
          ping_check_info :=
            if run_count.isSome ∨ timeout.isSome then
              some
                { run_count :=
                    match run_count with
                    | some rc => some rc
                    | none =>
                        match cm.ping_check_info with
                        | some ci => ci.run_count
                        | none => some 1
                  run_interval := some 1000
                  timeout :=
                    match timeout with
                    | some t => some t
                    | none =>
                        match cm.ping_check_info with
                        | some ci => ci.timeout
                        | none => some 5000 }
            else none }

/-- `MonitorAPI.update_http_numeric_monitor` (monitor.py lines 530-602). -/
def update_http_numeric_monitor (current : List HttpNumericMonitorResponse)
    (monitor_id : String) (description : Option String)
    (run_interval : Option RunIntervalEnum)
    (url : Option String) (timeout : Option Int) :
    Except String ModifyHttpNumericMonitorRequest :=
  match current.find? (fun m => m.monitor_id == monitor_id) with
  | none => .error ("HTTP numeric monitor with ID " ++ monitor_id ++ " not found")
  | some cm =>
      .ok
        { toAbstractModifyNumericMonitorRequest :=
            numericUpdateSnapshot cm.toAbstractNumericMonitorResponse
              description run_interval
          http_check_info :=
            if url.isSome ∨ timeout.isSome then
              some
                { request_url :=
                    match url with
                    | some u => some u
                    | none =>
                        match cm.http_check_info with
                        | some ci => ci.request_url
                        | none => some "http://example.com"
                  timeout :=
                    match timeout with
                    | some t => some t
                    | none =>
                        match cm.http_check_info with
                        | some ci => ci.timeout
                        | none => some 10000 }
            else none }

/-- `MonitorAPI.update_snmp_monitor` (monitor.py lines 890-962). -/
def update_snmp_monitor (current : List SnmpNumericMonitorResponse)
    (monitor_id : String) (description : Option String)
    (run_interval : Option RunIntervalEnum)
    (oid : Option String) (convert_flg : Option ConvertFlagEnum) :
    Except String ModifySnmpNumericMonitorRequest :=
  match current.find? (fun m => m.monitor_id == monitor_id) with
  | none => .error ("SNMP numeric monitor with ID " ++ monitor_id ++ " not found")
  | some cm =>
      .ok
        { toAbstractModifyNumericMonitorRequest :=
            numericUpdateSnapshot cm.toAbstractNumericMonitorResponse
              description run_interval
          snmp_check_info :=
            if oid.isSome ∨ convert_flg.isSome then
              some
                { snmp_oid :=
                    match oid with
                    | some o => some o
                    | none =>
                        match cm.snmp_check_info with
                        | some ci => ci.snmp_oid
                        | none => some "1.3.6.1.2.1.1.3.0"
                  convert_flg :=
                    match convert_flg with
                    | some f => some f
                    | none =>
                        match cm.snmp_check_info with
                        | some ci => ci.convert_flg
                        | none => some .NONE }
            else none }

/-- One upstream HTTP call made by an update builder: the monitor-list
fetch, or the modify submission for a monitor id. -/
inductive NetworkCall
  | fetchList
  | modify (monitor_id : String)
  deriving DecidableEq, Repr

/-- The sequence of upstream calls `update_ping_monitor` performs: the
list fetch always, then the modify only when a current monitor was
found. -/
def update_ping_monitor_calls (current : List PingMonitorResponse)
    (monitor_id : String) (description : Option String)
    (run_interval : Option RunIntervalEnum)
    (run_count : Option Int) (timeout : Option Int) : List NetworkCall :=
  NetworkCall.fetchList ::
    (match update_ping_monitor current monitor_id description run_interval
        run_count timeout with
     | .ok _ => [NetworkCall.modify monitor_id]
     | .error _ => [])

/-- The sequence of upstream calls `update_http_numeric_monitor`
performs. -/
def update_http_numeric_monitor_calls (current : List HttpNumericMonitorResponse)
    (monitor_id : String) (description : Option String)
    (run_interval : Option RunIntervalEnum)
    (url : Option String) (timeout : Option Int) : List NetworkCall :=
  NetworkCall.fetchList ::
    (match update_http_numeric_monitor current monitor_id description
        run_interval url timeout with
     | .ok _ => [NetworkCall.modify monitor_id]
     | .error _ => [])

/-- The sequence of upstream calls `update_snmp_monitor` performs. -/
def update_snmp_monitor_calls (current : List SnmpNumericMonitorResponse)
    (monitor_id : String) (description : Option String)
    (run_interval : Option RunIntervalEnum)
    (oid : Option String) (convert_flg : Option ConvertFlagEnum) : List NetworkCall :=
  NetworkCall.fetchList ::
    (match update_snmp_monitor current monitor_id description run_interval
        oid convert_flg with
     | .ok _ => [NetworkCall.modify monitor_id]
     | .error _ => [])

/-! ## disable_collectors (monitor.py lines 222-249)

`disable_collectors` reads each monitor via `get_monitor`, which parses
the server JSON into `AbstractMonitorResponse` (client.py lines
449-459).  That class declares no `prediction_flg` field and pydantic's
default `extra="ignore"` drops the server's `predictionFlg` key, so
`hasattr(monitor, 'prediction_flg')` is `False` on every instance. -/

/-- The server-side monitor record, restricted to the fields this claim
touches: its identifier and the `predictionFlg` key of its JSON
rendering (`none` when the key is absent). -/
structure RawMonitorRecord where
  monitorId : String
  predictionFlg : Option Bool := none
  deriving DecidableEq, Repr

/-- `HinemosClient.get_monitor`'s parse of the server JSON into
`AbstractMonitorResponse` (client.py lines 449-459): `monitorId` is
kept, the undeclared `predictionFlg` key is ignored; fields whose
source keys the restricted raw record does not carry keep their
declared `None` defaults. -/
def parseAbstractMonitorResponse (r : RawMonitorRecord) : AbstractMonitorResponse :=
  { monitor_id := r.monitorId }

/-- Python's `hasattr(monitor, 'prediction_flg')` followed by the
attribute read, as an optional value: `AbstractMonitorResponse`
declares no such field and extras are ignored, so the attribute is
absent on every instance. -/
def getPredictionFlgAttr (_ : AbstractMonitorResponse) : Option Bool := none

/-- The `valid_monitor_ids` filter loop of
`MonitorAPI.disable_collectors` (monitor.py lines 234-246), over a
server model mapping each id to its raw record (`none` models a read
that raises). -/
def disable_collectors_valid_ids (server : String → Option RawMonitorRecord)
    (monitor_ids : List String) : List String :=
  monitor_ids.foldl
    (fun acc mid =>
      match server mid with
      | some raw =>
          let monitor := parseAbstractMonitorResponse raw
          if (getPredictionFlgAttr monitor).getD false then acc
          else acc ++ [mid]
      | none => acc ++ [mid])
    []

/-- `MonitorAPI.disable_collectors` (monitor.py lines 222-249): the id
list passed to `set_collector_valid(valid_monitor_ids, False)`, or
`none` when no toggle call is made (empty input, or empty filtered
list). -/
def disable_collectors_toggle_call (server : String → Option RawMonitorRecord)
    (monitor_ids : List String) : Option (List String) :=
  if monitor_ids.isEmpty then none
  else
    let valid := disable_collectors_valid_ids server monitor_ids
    if valid.isEmpty then none else some valid

/-! ## Theorems -/

/-- The classification branch of the converter agrees pointwise with
the claim's condition. -/
theorem classifyNumericType_eq_claim (lower upper : Option ℚ) :
    classifyNumericType lower upper =
      (if claimChangeCondition lower upper then .CHANGE else .BASIC) := by
  cases lower with
  | none => cases upper <;> rfl
  | some l =>
    cases upper with
    | none => rfl
    | some u =>
      simp only [classifyNumericType, claimChangeCondition]
      by_cases h : l < 0 ∨ (l = 0 ∧ u = 0)
      · rw [if_pos h, if_pos]
        rcases h with h | ⟨h1, h2⟩
        · simp [h]
        · simp [h1, h2]
      · rw [if_neg h]
        have hb : (decide (l < 0) || (decide (l = 0) && decide (u = 0))) = false := by
          push_neg at h
          rcases h with ⟨h1, h2⟩
          by_cases hl0 : l = 0
          · simp [h1, hl0, h2 hl0]
          · simp [h1, hl0]
        simp only [hb, Bool.false_eq_true, if_false]
        split <;> rfl

/-- C10: a converted threshold row is classified `CHANGE` exactly when
both limits are present and the lower limit is negative or both limits
are `0.0`, and `BASIC` otherwise; consequently a row whose limits are
both `0.0` comes back from the update-path round trip classified
`CHANGE`, not `BASIC`. -/
theorem C10_converter_classification :
    (∀ r : MonitorNumericValueInfoResponse,
      convert_numeric_value_response_to_request [r] =
        [{ monitor_numeric_type :=
             some (if claimChangeCondition r.threshold_lower_limit r.threshold_upper_limit
                   then .CHANGE else .BASIC)
           priority := r.priority
           threshold_lower_limit := r.threshold_lower_limit
           threshold_upper_limit := r.threshold_upper_limit
           message := r.message }]) ∧
    (convert_numeric_value_response_to_request
        [{ priority := .INFO, threshold_lower_limit := some 0,
           threshold_upper_limit := some 0 }]).map
      (·.monitor_numeric_type) = [some .CHANGE] := by
  constructor
  · intro r
    simp only [convert_numeric_value_response_to_request, List.map_cons, List.map_nil,
      classifyNumericType_eq_claim]
  · decide

/-- C4: with no caller-supplied thresholds, the ping and HTTP-numeric
create builders synthesize eight-entry default tables whose
`(classification, priority)` pairs are pairwise distinct and span
`{BASIC, CHANGE} × {INFO, WARNING, CRITICAL, UNKNOWN}`; the ping
`BASIC/INFO` entry has limits `1000`/`1` and the HTTP `BASIC/WARNING`
entry has limits `0`/`5000`. -/
theorem C4_default_threshold_tables :
    create_ping_numeric_value_info none = defaultPingThresholds ∧
    create_http_numeric_value_info none = defaultHttpNumericThresholds ∧
    defaultPingThresholds.length = 8 ∧
    defaultHttpNumericThresholds.length = 8 ∧
    (defaultPingThresholds.map thresholdPair).Nodup ∧
    (defaultHttpNumericThresholds.map thresholdPair).Nodup ∧
    (defaultPingThresholds.map thresholdPair).Perm
      [(some .BASIC, .INFO), (some .BASIC, .WARNING), (some .BASIC, .CRITICAL),
       (some .BASIC, .UNKNOWN), (some .CHANGE, .INFO), (some .CHANGE, .WARNING),
       (some .CHANGE, .CRITICAL), (some .CHANGE, .UNKNOWN)] ∧
    (defaultHttpNumericThresholds.map thresholdPair).Perm
      [(some .BASIC, .INFO), (some .BASIC, .WARNING), (some .BASIC, .CRITICAL),
       (some .BASIC, .UNKNOWN), (some .CHANGE, .INFO), (some .CHANGE, .WARNING),
       (some .CHANGE, .CRITICAL), (some .CHANGE, .UNKNOWN)] ∧
    ({ monitor_numeric_type := some .BASIC, priority := .INFO,
       threshold_lower_limit := some 1000, threshold_upper_limit := some 1 } :
        MonitorNumericValueInfoRequest) ∈ defaultPingThresholds ∧
    ({ monitor_numeric_type := some .BASIC, priority := .WARNING,
       threshold_lower_limit := some 0, threshold_upper_limit := some 5000 } :
        MonitorNumericValueInfoRequest) ∈ defaultHttpNumericThresholds := by
  decide

/-- C5: with the default `by_alias=True` dump, a
`MonitorNumericValueInfoRequest` whose classification is `BASIC`
serializes its `monitorNumericType` entry as the empty string, while
`PREDICTION` and `CHANGE` serialize as their literal tokens. -/
theorem C5_basic_serializes_as_empty_string :
    ∀ (p : PriorityEnum) (low up : Option ℚ) (msg : Option String),
      (MonitorNumericValueInfoRequest.model_dump
        { monitor_numeric_type := some .BASIC, priority := p,
          threshold_lower_limit := low, threshold_upper_limit := up,
          message := msg }).monitorNumericType = some "" ∧
      (MonitorNumericValueInfoRequest.model_dump
        { monitor_numeric_type := some .PREDICTION, priority := p,
          threshold_lower_limit := low, threshold_upper_limit := up,
          message := msg }).monitorNumericType = some "PREDICTION" ∧
      (MonitorNumericValueInfoRequest.model_dump
        { monitor_numeric_type := some .CHANGE, priority := p,
          threshold_lower_limit := low, threshold_upper_limit := up,
          message := msg }).monitorNumericType = some "CHANGE" := by
  intro p low up msg
  refine ⟨rfl, rfl, rfl⟩

/-- C6: `RunInterval` deserialization accepts exactly the seven string
tokens and the seven legacy second-count integers, with the mapping
`0→NONE, 30→SEC_30, 60→MIN_01, 300→MIN_05, 600→MIN_10, 1800→MIN_30,
3600→MIN_60`; every other string or integer is a hard validation
error. -/
theorem C6_run_interval_deserialization :
    ∀ v : PyValue, RunIntervalEnum.deserialize v = runIntervalSpecTable v := by
  intro v
  cases v with
  | pyStr s =>
      simp only [RunIntervalEnum.deserialize, RunIntervalEnum.fromToken,
        RunIntervalEnum.missing, runIntervalSpecTable]
      split_ifs <;> rfl
  | pyInt n =>
      simp only [RunIntervalEnum.deserialize, RunIntervalEnum.missing,
        runIntervalSpecTable]

/-- C7: every non-2xx response raises `HinemosAPIError` carrying the
status code, the parsed body, and a message built from the JSON body's
`message` field (falling back to the raw text); network-level failures
raise the same error type with no status code; in particular a 404 with
body `{"message": "facility not found"}` yields status code 404 and
message `"HTTP 404: facility not found"`. -/
theorem C7_api_error_propagation :
    (∀ r : HttpResponseModel, ¬(200 ≤ r.status ∧ r.status < 300) →
      make_request (.response r) =
        .error { message := "HTTP " ++ toString r.status ++ ": " ++ errorDetail r
                 status_code := some r.status
                 response := r.jsonBody }) ∧
    (∀ ex : String,
      make_request (.requestError ex) =
        .error { message := "Request failed: " ++ ex
                 status_code := none
                 response := none }) ∧
    (∀ (r : HttpResponseModel) (body : ErrorBody),
      r.status = 404 → r.jsonBody = some body →
      body.message = some "facility not found" →
      ∃ e, make_request (.response r) = .error e ∧
        e.status_code = some 404 ∧
        e.response = some body ∧
        e.message = "HTTP 404: facility not found") := by
  refine ⟨?_, ?_, ?_⟩
  · intro r h
    simp only [make_request]
    rw [if_neg h]
  · intro ex
    rfl
  · intro r body hs hb hm
    have hne : ¬(200 ≤ r.status ∧ r.status < 300) := by
      rw [hs]; omega
    refine ⟨{ message := "HTTP " ++ toString r.status ++ ": " ++ errorDetail r
              status_code := some r.status
              response := r.jsonBody }, ?_, ?_, ?_, ?_⟩
    · simp only [make_request]
      rw [if_neg hne]
    · simp [hs]
    · simp [hb]
    · simp only [errorDetail, hs, hb, hm, Option.getD_some]
      rfl

/-- C7 witness: the 404 scenario at a concrete response. -/
theorem C7_api_error_propagation_witness :
    make_request (.response
      { status := 404
        jsonBody := some { message := some "facility not found", reprStr := "{}" }
        text := "", excStr := "" }) =
      .error { message := "HTTP 404: facility not found"
               status_code := some 404
               response := some { message := some "facility not found", reprStr := "{}" } } := by
  have h := C7_api_error_propagation.1
    { status := 404
      jsonBody := some { message := some "facility not found", reprStr := "{}" }
      text := "", excStr := "" } (by decide)
  exact h

/-- Once a token is held, any number of further operations performs no
additional login. -/
theorem runOperations_token_held (tok : String) (st : ClientState)
    (h : tokenTruthy st.token = true) :
    ∀ n : Nat, runOperations tok st n = (st, 0) := by
  intro n
  induction n with
  | zero => rfl
  | succ m ih =>
      simp [runOperations, runOperation, ensureLoggedIn, h, ih]

/-- C8: login is idempotent per client instance — with a token held a
further `login` is a no-op — and any sequence of one or more operations
on a fresh client triggers exactly one upstream login call. -/
theorem C8_login_idempotent_and_cached :
    (∀ (tok : String) (st : ClientState), tokenTruthy st.token = true →
      HinemosClient.login tok st = (st, 0)) ∧
    (∀ tok : String, tok ≠ "" → ∀ n : Nat, 1 ≤ n →
      (runOperations tok { token := none } n).2 = 1) := by
  constructor
  · intro tok st h
    simp [HinemosClient.login, h]
  · intro tok htok n hn
    match n, hn with
    | m + 1, _ =>
      have hheld : tokenTruthy (some tok) = true := by
        simp [tokenTruthy, htok]
      simp [runOperations, runOperation, ensureLoggedIn, HinemosClient.login,
        tokenTruthy, runOperations_token_held tok { token := some tok } hheld m]

/-- C8 witness: a held token makes login a no-op, and two operations on
a fresh client issue exactly one login call. -/
theorem C8_login_idempotent_and_cached_witness :
    HinemosClient.login "TOKEN" { token := some "TOKEN" } =
      ({ token := some "TOKEN" }, 0) ∧
    (runOperations "TOKEN" { token := none } 2).2 = 1 :=
  ⟨C8_login_idempotent_and_cached.1 "TOKEN" { token := some "TOKEN" } (by decide),
   C8_login_idempotent_and_cached.2 "TOKEN" (by decide) 2 (by decide)⟩

/-- A valid dotted-decimal IPv4 string contains no colon. -/
theorem valid_ipv4_no_colon (s : String) (h : isValidIPv4 s = true) :
    containsColon s = false := by
  have hall : s.toList.all (fun c => c.isDigit || c == '.') = true :=
    (Bool.and_eq_true_iff.mp h).1
  rw [containsColon]
  cases hcc : s.toList.contains ':' with
  | false => rfl
  | true =>
      exfalso
      have h2 : List.elem ':' s.toList = true := hcc
      have hmem : ':' ∈ s.toList := List.elem_iff.mp h2
      have := List.all_eq_true.mp hall ':' hmem
      exact absurd this (by decide)

/-- A valid textual IPv6 string contains a colon. -/
theorem valid_ipv6_has_colon (s : String) (h : isValidIPv6 s = true) :
    containsColon s = true := by
  have hcnt : 2 ≤ s.toList.count ':' := by
    have := (Bool.and_eq_true_iff.mp h).2
    exact of_decide_eq_true this
  have hmem : ':' ∈ s.toList := by
    have : 0 < s.toList.count ':' := by omega
    exact List.count_pos_iff.mp this
  rw [containsColon]
  exact List.elem_iff.mpr hmem

/-- C9: for every valid IPv4 string `create_node` populates
`ip_address_v4` with version `IPV4` and leaves `ip_address_v6` absent;
for every valid IPv6 string it populates `ip_address_v6` with version
`IPV6` and leaves `ip_address_v4` absent — exactly one address field is
set, consistently with the version tag. -/
theorem C9_create_node_ip_consistency :
    ∀ s : String,
      (isValidIPv4 s = true →
        create_node_ip_fields s =
          { ip_address_v4 := some s, ip_address_v6 := none,
            ip_address_version := .IPV4 }) ∧
      (isValidIPv6 s = true →
        create_node_ip_fields s =
          { ip_address_v4 := none, ip_address_v6 := some s,
            ip_address_version := .IPV6 }) := by
  intro s
  constructor
  · intro h
    simp [create_node_ip_fields, valid_ipv4_no_colon s h]
  · intro h
    simp [create_node_ip_fields, valid_ipv6_has_colon s h]

/-- C9 witness: a concrete IPv4 and a concrete IPv6 address. -/
theorem C9_create_node_ip_consistency_witness :
    (isValidIPv4 "192.168.0.1" = true ∧
      create_node_ip_fields "192.168.0.1" =
        { ip_address_v4 := some "192.168.0.1", ip_address_v6 := none,
          ip_address_version := .IPV4 }) ∧
    (isValidIPv6 "::1" = true ∧
      create_node_ip_fields "::1" =
        { ip_address_v4 := none, ip_address_v6 := some "::1",
          ip_address_version := .IPV6 }) :=
  ⟨⟨by decide, (C9_create_node_ip_consistency "192.168.0.1").1 (by decide)⟩,
   ⟨by decide, (C9_create_node_ip_consistency "::1").2 (by decide)⟩⟩

/-- An identifier absent from the projected id list is found by no
list scan. -/
theorem find_by_id_eq_none {α : Type} (f : α → String) (l : List α) (mid : String)
    (h : mid ∉ l.map f) : l.find? (fun m => f m == mid) = none := by
  rw [List.find?_eq_none]
  intro x hx
  simp only [beq_iff_eq]
  intro hfeq
  exact h (List.mem_map.mpr ⟨x, hx, hfeq⟩)

/-- C3: when the target identifier appears nowhere in the fetched
monitor list, each update builder (ping, HTTP numeric, SNMP) raises its
not-found `ValueError` and performs no modify call — the list fetch is
the only upstream call. -/
theorem C3_update_not_found_no_modify :
    ∀ (lp : List PingMonitorResponse) (lh : List HttpNumericMonitorResponse)
      (ls : List SnmpNumericMonitorResponse) (mid : String)
      (d : Option String) (ri : Option RunIntervalEnum)
      (rc tp : Option Int) (u : Option String) (th : Option Int)
      (oid : Option String) (cf : Option ConvertFlagEnum),
      mid ∉ lp.map (·.monitor_id) →
      mid ∉ lh.map (·.monitor_id) →
      mid ∉ ls.map (·.monitor_id) →
      update_ping_monitor lp mid d ri rc tp =
        .error ("Monitor with ID " ++ mid ++ " not found") ∧
      update_ping_monitor_calls lp mid d ri rc tp = [NetworkCall.fetchList] ∧
      update_http_numeric_monitor lh mid d ri u th =
        .error ("HTTP numeric monitor with ID " ++ mid ++ " not found") ∧
      update_http_numeric_monitor_calls lh mid d ri u th = [NetworkCall.fetchList] ∧
      update_snmp_monitor ls mid d ri oid cf =
        .error ("SNMP numeric monitor with ID " ++ mid ++ " not found") ∧
      update_snmp_monitor_calls ls mid d ri oid cf = [NetworkCall.fetchList] := by
  intro lp lh ls mid d ri rc tp u th oid cf hp hh hs
  have fp := find_by_id_eq_none (fun m : PingMonitorResponse => m.monitor_id) lp mid hp
  have fh := find_by_id_eq_none
    (fun m : HttpNumericMonitorResponse => m.monitor_id) lh mid hh
  have fs := find_by_id_eq_none
    (fun m : SnmpNumericMonitorResponse => m.monitor_id) ls mid hs
  refine ⟨?_, ?_, ?_, ?_, ?_, ?_⟩ <;>
    simp [update_ping_monitor, update_http_numeric_monitor, update_snmp_monitor,
      update_ping_monitor_calls, update_http_numeric_monitor_calls,
      update_snmp_monitor_calls, fp, fh, fs]

/-- C3 witness: a concrete state holding one monitor of each type, none
of them matching the requested identifier. -/
theorem C3_update_not_found_no_modify_witness :
    update_ping_monitor [{ monitor_id := "PING_01" }] "X" none none none none =
      .error "Monitor with ID X not found" ∧
    update_ping_monitor_calls [{ monitor_id := "PING_01" }] "X" none none none none =
      [NetworkCall.fetchList] ∧
    update_http_numeric_monitor [{ monitor_id := "HTTP_01" }] "X" none none none none =
      .error "HTTP numeric monitor with ID X not found" ∧
    update_http_numeric_monitor_calls [{ monitor_id := "HTTP_01" }] "X" none none none none =
      [NetworkCall.fetchList] ∧
    update_snmp_monitor [{ monitor_id := "SNMP_01" }] "X" none none none none =
      .error "SNMP numeric monitor with ID X not found" ∧
    update_snmp_monitor_calls [{ monitor_id := "SNMP_01" }] "X" none none none none =
      [NetworkCall.fetchList] := by
  have h := C3_update_not_found_no_modify
    [{ monitor_id := "PING_01" }] [{ monitor_id := "HTTP_01" }]
    [{ monitor_id := "SNMP_01" }] "X" none none none none none none none none
    (by decide) (by decide) (by decide)
  exact h

/-- C2: updating an HTTP numeric monitor with only a new URL keeps the
fetched snapshot's timeout in the submitted check info and carries over
the facility, application, item/measure labels, the prediction and
change parameters, the converted threshold table and all three
notification lists from the fetched record. -/
theorem C2_update_preserves_unspecified_fields :
    ∀ (current : List HttpNumericMonitorResponse) (mid u : String)
      (cm : HttpNumericMonitorResponse) (ci : HttpCheckInfoResponse),
      current.find? (fun m => m.monitor_id == mid) = some cm →
      cm.http_check_info = some ci →
      ci.timeout = some 10000 →
      ∃ req, update_http_numeric_monitor current mid none none (some u) none = .ok req ∧
        req.http_check_info = some { request_url := some u, timeout := some 10000 } ∧
        req.facility_id = cm.facility_id ∧
        req.application = cm.application ∧
        req.item_name = cm.item_name ∧
        req.measure = cm.measure ∧
        req.collector_flg = cm.collector_flg ∧
        req.prediction_flg = cm.prediction_flg ∧
        req.prediction_method = cm.prediction_method ∧
        req.prediction_target = cm.prediction_target ∧
        req.prediction_analysys_range = cm.prediction_analysys_range ∧
        req.prediction_application = cm.prediction_application ∧
        req.change_flg = cm.change_flg ∧
        req.change_analysys_range = cm.change_analysys_range ∧
        req.change_application = cm.change_application ∧
        req.numeric_value_info =
          some (convert_numeric_value_response_to_request cm.numeric_value_info) ∧
        req.notify_relation_list =
          some (convert_notify_relation_response_to_request cm.notify_relation_list) ∧
        req.prediction_notify_relation_list =
          some (convert_notify_relation_response_to_request
            cm.prediction_notify_relation_list) ∧
        req.change_notify_relation_list =
          some (convert_notify_relation_response_to_request
            cm.change_notify_relation_list) := by
  intro current mid u cm ci hfind hci hti
  have heq : update_http_numeric_monitor current mid none none (some u) none =
      .ok { toAbstractModifyNumericMonitorRequest :=
              numericUpdateSnapshot cm.toAbstractNumericMonitorResponse none none
            http_check_info := some { request_url := some u, timeout := some 10000 } } := by
    simp only [update_http_numeric_monitor, hfind]
    simp [hci, hti]
  exact ⟨_, heq, rfl, rfl, rfl, rfl, rfl, rfl, rfl, rfl, rfl, rfl, rfl, rfl, rfl, rfl,
    rfl, rfl, rfl, rfl⟩

/-- C2 witness: a concrete fetched monitor with `timeout=10000` updated
with only a new URL. -/
theorem C2_update_preserves_unspecified_fields_witness :
    ∃ req,
      update_http_numeric_monitor
        [{ monitor_id := "X", facility_id := some "NODE01",
           application := some "Hinemos", item_name := some "Response Time",
           measure := some "msec",
           http_check_info :=
             some { request_url := some "http://old", timeout := some 10000 } }]
        "X" none none (some "http://new") none = .ok req ∧
      req.http_check_info = some { request_url := some "http://new", timeout := some 10000 } ∧
      req.facility_id = some "NODE01" ∧
      req.application = some "Hinemos" := by
  obtain ⟨req, h1, h2, h3, h4, _⟩ :=
    C2_update_preserves_unspecified_fields
      [{ monitor_id := "X", facility_id := some "NODE01",
         application := some "Hinemos", item_name := some "Response Time",
         measure := some "msec",
         http_check_info :=
           some { request_url := some "http://old", timeout := some 10000 } }]
      "X" "http://new"
      { monitor_id := "X", facility_id := some "NODE01",
        application := some "Hinemos", item_name := some "Response Time",
        measure := some "msec",
        http_check_info :=
          some { request_url := some "http://old", timeout := some 10000 } }
      { request_url := some "http://old", timeout := some 10000 }
      (by decide) rfl rfl
  exact ⟨req, h1, h2, h3, h4⟩

/-- Three-monitor server state for the collector-disable scenario:
`MON_PRED`'s record carries `predictionFlg=true`, the other two carry
`predictionFlg=false`. -/
def collectorScenarioServer : String → Option RawMonitorRecord := fun mid =>
  if mid = "MON_PRED" then some { monitorId := "MON_PRED", predictionFlg := some true }
  else if mid = "MON_A" then some { monitorId := "MON_A", predictionFlg := some false }
  else if mid = "MON_B" then some { monitorId := "MON_B", predictionFlg := some false }
  else none

/-- C1: evaluating `disable_collectors` on three monitor ids of which
exactly one has `predictionFlg=true` upstream — because `get_monitor`
parses into `AbstractMonitorResponse`, which declares no
`prediction_flg` field and ignores the extra key, the
`hasattr`-guarded skip never fires: the toggle call receives all three
ids, not only the other two as the claim (and the function's own
docstring) require. -/
theorem C1_disable_collectors_skips_nothing :
    disable_collectors_toggle_call collectorScenarioServer
        ["MON_PRED", "MON_A", "MON_B"] = some ["MON_PRED", "MON_A", "MON_B"] ∧
    disable_collectors_toggle_call collectorScenarioServer
        ["MON_PRED", "MON_A", "MON_B"] ≠ some ["MON_A", "MON_B"] := by
  decide

end Hinemos
